import Mathlib

set_option maxRecDepth 8000

/-!
Verification of the CEP → temperature pipeline against its specification.

The two Go programs (ServiceA, the edge gateway, and ServiceB, the
resolution service) are shallowly embedded: each HTTP handler becomes a
pure function of the request data plus an oracle describing the outcome of
every upstream HTTP interaction (request-build failure, network failure,
body-read failure, or a status code together with a parse view of the
body).  Go `float64` values are embedded as exact rationals, and every
`float64` operation and decimal literal is followed by an explicit
IEEE-754 binary64 round-to-nearest-even step, so the numeric results are
the bit-exact doubles the program computes.  To keep every definition
kernel-evaluable, rational values on computation paths are built with
`Rat.divInt` and integer arithmetic (the `Rat.mul`/`Rat.add` instances are
irreducible); bridge lemmas below prove these constructions equal the
ordinary field operations on `ℚ`.
-/

/-! ## IEEE-754 binary64 model (semantics of Go float64 arithmetic) -/

/-- Fuel-based binary logarithm: `log2Fuel f n` is the floor of log₂ `n`
for `1 ≤ n < 2 ^ f` (and `0` for `n = 0`).  Structural recursion on the
fuel so that the kernel can evaluate it. -/
def log2Fuel : Nat → Nat → Nat
  | 0, _ => 0
  | f + 1, n => if 2 ≤ n then log2Fuel f (n / 2) + 1 else 0

/-- Round the fraction `n / d` (with `d > 0`) to the nearest integer,
ties to even.  `r2` is twice the remainder of the floor division, so
comparing it with `d` compares the fractional part with one half. -/
def roundHalfEvenInt (n d : ℤ) : ℤ :=
  let f := n.fdiv d
  let r2 := 2 * (n - f * d)
  if r2 < d then f
  else if d < r2 then f + 1
  else if f % 2 = 0 then f else f + 1

/-- Modelled from the spec: IEEE-754 binary64 rounding (round to nearest,
ties to even), the library semantics of Go `float64` arithmetic, which is
not itself part of the repository sources.  Exact for finite values of
magnitude at least 1, which covers every temperature, coordinate and
constant in this development (magnitudes below 1 are rounded on the
coarser grid of exponent 0, which no theorem here relies on). -/
def roundFloat64 (q : ℚ) : ℚ :=
  if q.num = 0 then 0
  else
    let e := log2Fuel 1100 (q.num.natAbs / q.den)
    let m := roundHalfEvenInt (q.num * 2 ^ 52) ((q.den : ℤ) * 2 ^ e)
    Rat.divInt (m * 2 ^ e) (2 ^ 52)

/-- Exact rational product, built from `Rat.divInt` so it evaluates. -/
def qmul (x y : ℚ) : ℚ := Rat.divInt (x.num * y.num) ((x.den : ℤ) * (y.den : ℤ))

/-- Exact rational sum, built from `Rat.divInt` so it evaluates. -/
def qadd (x y : ℚ) : ℚ :=
  Rat.divInt (x.num * (y.den : ℤ) + y.num * (x.den : ℤ)) ((x.den : ℤ) * (y.den : ℤ))

/-- Go `float64` multiplication: exact product, then one binary64 rounding. -/
def f64mul (x y : ℚ) : ℚ := roundFloat64 (qmul x y)

/-- Go `float64` addition: exact sum, then one binary64 rounding. -/
def f64add (x y : ℚ) : ℚ := roundFloat64 (qadd x y)

/-- The Go constant `1.8` converted to `float64`. -/
def lit18 : ℚ := roundFloat64 (Rat.divInt 9 5)

/-- The Go constant `273.15` converted to `float64`. -/
def lit27315 : ℚ := roundFloat64 (Rat.divInt 5463 20)

/-! ## Shared HTTP data model -/

/-- The outward success payload of both services (Go struct `Temperature`,
identical field-for-field in ServiceA and ServiceB, JSON fields `city`,
`temp_C`, `temp_F`, `temp_K`). -/
structure Temperature where
  City : String
  TempC : ℚ
  TempF : ℚ
  TempK : ℚ
deriving DecidableEq

/-- A response body written by one of the handlers: either the JSON error
object with a single `error` string, or an encoded `Temperature`. -/
inductive RespBody where
  | err (msg : String)
  | temp (t : Temperature)
deriving DecidableEq

/-- An HTTP response as produced by a handler: status code plus body. -/
structure HttpResponse where
  status : Nat
  body : RespBody
deriving DecidableEq

/-- Oracle for one outbound HTTP call made by ServiceB: the request could
not be built, the transport failed, reading the body failed, or a status
code arrived together with the parse view of the body (`none` models a
body that `json.Unmarshal` rejects). -/
inductive Upstream (α : Type) where
  | reqErr
  | netErr
  | readErr
  | resp (status : Nat) (body : Option α)
deriving DecidableEq

/-- The compiled pattern of both services, `validCepRegex`, matching the
regular expression of eight ASCII digits anchored at both ends. -/
def validCepMatch (s : String) : Bool :=
  s.length == 8 && s.data.all Char.isDigit

/-- Spec-side reading of the validation rule: the string consists of
exactly eight ASCII digits. -/
def eightDigits (s : String) : Prop :=
  s.length = 8 ∧ ∀ c ∈ s.data, c.isDigit = true

instance decEightDigits (s : String) : Decidable (eightDigits s) :=
  inferInstanceAs (Decidable (s.length = 8 ∧ ∀ c ∈ s.data, c.isDigit = true))

/-! ## ServiceB: resolution service -/

namespace ServiceB

/-- Directory API response schema (Go struct `CepAwesomeapiResponse`). -/
structure CepAwesomeapiResponse where
  Cep : String
  AddressType : String
  AddressName : String
  Address : String
  State : String
  District : String
  Latitude : String
  Longitude : String
  City : String
  Ibge : String
  Ddd : String
deriving DecidableEq

/-- Weather API current-units block (Go struct `CurrentUnits`). -/
structure CurrentUnits where
  Time : String
  Interval : String
  Temperature2M : String
deriving DecidableEq

/-- Weather API current-reading block (Go struct `Current`). -/
structure Current where
  Time : String
  Interval : Int
  Temperature2M : ℚ
deriving DecidableEq

/-- Weather API response schema (Go struct `WeatherApiResponse`). -/
structure WeatherApiResponse where
  Latitude : ℚ
  Longitude : ℚ
  GenerationtimeMs : ℚ
  UtcOffsetSeconds : Int
  Timezone : String
  TimezoneAbbreviation : String
  Elevation : ℚ
  CurrentUnits : CurrentUnits
  Current : Current
deriving DecidableEq

/-- Directory Lookup Adapter (Go `CepAwesomeapi`): maps the upstream
interaction to a result or an error.  Mirrors the source order of checks:
transport errors first, then status 404, then any other non-200 status,
then JSON decoding, and finally the empty-CEP-echo quirk of a 200 body. -/
def CepAwesomeapi (_cep : String) (u : Upstream CepAwesomeapiResponse) :
    Except String CepAwesomeapiResponse :=
  match u with
  | .reqErr => .error "request build error"
  | .netErr => .error "network error"
  | .readErr => .error "body read error"
  | .resp status body =>
    if status = 404 then .error "cep not found"
    else if status ≠ 200 then .error ("cep api returned " ++ toString status)
    else
      match body with
      | none => .error "unmarshal error"
      | some r => bif r.Cep == "" then .error "cep not found" else .ok r

/-- Result of the Weather Adapter together with the fact of whether the
outbound HTTP request to the weather API was issued at all. -/
structure WeatherCall where
  result : Except String WeatherApiResponse
  httpCalled : Bool

/-- Weather Adapter (Go `WeatherApi`): validates both coordinate strings
with `strconv.ParseFloat` (abstracted as the `parse` parameter) before any
network activity, then maps the upstream interaction to a result.  The
parsed numeric values are discarded by the source, exactly as here. -/
def WeatherApi (parse : String → Option ℚ) (latitude longitude : String)
    (u : Upstream WeatherApiResponse) : WeatherCall :=
  match parse latitude with
  | none => ⟨.error "invalid coordinates", false⟩
  | some _ =>
    match parse longitude with
    | none => ⟨.error "invalid coordinates", false⟩
    | some _ =>
      match u with
      | .reqErr => ⟨.error "request build error", true⟩
      | .netErr => ⟨.error "network error", true⟩
      | .readErr => ⟨.error "body read error", true⟩
      | .resp status body =>
        if status ≠ 200 then ⟨.error ("weather api returned " ++ toString status), true⟩
        else
          match body with
          | none => ⟨.error "unmarshal error", true⟩
          | some w => ⟨.ok w, true⟩

/-- Outcome of one run of the ServiceB handler: the HTTP response written,
plus which of the two adapters were invoked on the way. -/
structure HandlerResult where
  response : HttpResponse
  dirCalled : Bool
  weatherCalled : Bool
deriving DecidableEq

/-- ServiceB handler (Go `HandlerCep`): re-validates the CEP path
parameter, calls the directory adapter, then the weather adapter, and
builds the `Temperature` payload with the float64 conversions
`tempC*1.8 + 32` and `tempC + 273.15`.  Any adapter error becomes
`404 "can not find zipcode"`. -/
def HandlerCep (parse : String → Option ℚ) (cep : String)
    (dir : Upstream CepAwesomeapiResponse) (wea : Upstream WeatherApiResponse) :
    HandlerResult :=
  bif cep == "" || !validCepMatch cep then
    ⟨⟨422, .err "invalid zipcode"⟩, false, false⟩
  else
    match CepAwesomeapi cep dir with
    | .error _ => ⟨⟨404, .err "can not find zipcode"⟩, true, false⟩
    | .ok cepResponse =>
      match (WeatherApi parse cepResponse.Latitude cepResponse.Longitude wea).result with
      | .error _ => ⟨⟨404, .err "can not find zipcode"⟩, true, true⟩
      | .ok weatherResponse =>
        let tempC := weatherResponse.Current.Temperature2M
        ⟨⟨200, .temp ⟨cepResponse.City, tempC,
            f64add (f64mul tempC lit18) 32, f64add tempC lit27315⟩⟩, true, true⟩

end ServiceB

/-! ## ServiceA: edge gateway -/

namespace ServiceA

/-- Inbound payload of the gateway (Go struct `CepRequest`). -/
structure CepRequest where
  Cep : String
deriving DecidableEq

/-- Parse views of one ServiceB response body, as the gateway reads it:
`errField` is the `Error` field after unmarshalling into the anonymous
error struct (the empty string when the field is absent, empty, or the
body does not unmarshal — the source discards that error), `raw` is the
body text, and `tempParse` is the result of unmarshalling into
`Temperature`. -/
structure ServiceBBody where
  errField : String
  raw : String
  tempParse : Option Temperature
deriving DecidableEq

/-- Oracle for the gateway's one outbound call to ServiceB. -/
inductive ServiceBUpstream where
  | reqErr
  | netErr
  | readErr
  | resp (status : Nat) (body : ServiceBBody)
deriving DecidableEq

/-- Return value of Go `callServiceB`: a parsed `Temperature` with status
200, or a status code with an error message. -/
inductive CallBResult where
  | ok (t : Temperature)
  | err (status : Nat) (msg : String)
deriving DecidableEq

/-- Gateway call to ServiceB (Go `callServiceB`): transport and body-read
failures yield 500; a non-200 status is relayed with the `error` field of
the JSON body when non-empty, else the raw body text; a 200 body is parsed
into `Temperature` (parse failure yields 500). -/
def callServiceB (_cep : String) (b : ServiceBUpstream) : CallBResult :=
  match b with
  | .reqErr => .err 500 "failed to create request"
  | .netErr => .err 500 "failed to call ServiceB"
  | .readErr => .err 500 "failed to read response body"
  | .resp status body =>
    if status ≠ 200 then
      .err status (bif body.errField == "" then body.raw else body.errField)
    else
      match body.tempParse with
      | none => .err 500 "failed to parse response"
      | some t => .ok t

/-- Gateway handler (Go `ValidateAndProcessCep`): decode the request body
(`none` models a body `json.Decode` rejects), validate the CEP against the
eight-digit pattern, forward to ServiceB, and write either the relayed
`Temperature` with 200 or the error message re-wrapped as the outward
error body with the status `callServiceB` returned.  The second component
records whether the downstream call was made. -/
def ValidateAndProcessCep (body : Option CepRequest) (b : ServiceBUpstream) :
    HttpResponse × Bool :=
  match body with
  | none => (⟨422, .err "invalid zipcode"⟩, false)
  | some data =>
    bif !validCepMatch data.Cep then (⟨422, .err "invalid zipcode"⟩, false)
    else
      match callServiceB data.Cep b with
      | .err status msg => (⟨status, .err msg⟩, true)
      | .ok t => (⟨200, .temp t⟩, true)

end ServiceA

/-! ## A concrete decimal parser for witnesses -/

/-- Numeric value of a list of ASCII digits. -/
def digitsVal (l : List Char) : Nat :=
  l.foldl (fun a c => a * 10 + (c.toNat - 48)) 0

/-- Parse an unsigned decimal (digits, optionally a dot and more digits,
with at least one digit overall) into an exact rational. -/
def parseDecCore (l : List Char) : Option ℚ :=
  let intDigits := l.takeWhile Char.isDigit
  let rest := l.dropWhile Char.isDigit
  match rest with
  | [] => if intDigits.isEmpty then none else some (Rat.divInt (digitsVal intDigits) 1)
  | '.' :: frac =>
    if frac.all Char.isDigit && (!intDigits.isEmpty || !frac.isEmpty) then
      some (Rat.divInt (digitsVal intDigits * 10 ^ frac.length + digitsVal frac)
        (10 ^ frac.length))
    else none
  | _ => none

/-- Modelled from the spec: plain decimal-number parsing, the fragment of
the library function `strconv.ParseFloat` exercised by this system (an
optional sign, digits, an optional fraction).  The adapters above are
parametric in the parser, so every general theorem holds for any parser;
this concrete one instantiates the scenarios and witnesses. -/
def parseDecimal (s : String) : Option ℚ :=
  match s.data with
  | [] => none
  | '-' :: rest => (parseDecCore rest).map (fun q => Rat.divInt (-q.num) (q.den : ℤ))
  | '+' :: rest => parseDecCore rest
  | l => parseDecCore l

/-! ## Concrete scenario data (spec §8, scenario 5) -/

/-- Directory oracle of the Vitória scenario: 200 with a parsable body
echoing the CEP and carrying the coordinates. -/
def dirVitoria : Upstream ServiceB.CepAwesomeapiResponse :=
  .resp 200 (some ⟨"29902555", "", "", "", "ES", "", "-20.31", "-40.33", "Vitória", "", ""⟩)

/-- Weather oracle of the Vitória scenario: 200 with a parsable body whose
current reading is 28.5 Celsius. -/
def weaVitoria : Upstream ServiceB.WeatherApiResponse :=
  .resp 200 (some ⟨Rat.divInt (-2031) 100, Rat.divInt (-4033) 100, 0, 0, "", "", 0,
    ⟨"", "", ""⟩, ⟨"", 0, Rat.divInt 57 2⟩⟩)

/-! ## Bridge lemmas: the divInt constructions are the field operations -/

theorem qmul_eq_mul (x y : ℚ) : qmul x y = x * y := by
  rw [qmul, ← Rat.num_divInt_den x, ← Rat.num_divInt_den y,
    Rat.divInt_mul_divInt _ _ (by exact_mod_cast x.den_nz) (by exact_mod_cast y.den_nz)]
  simp [Rat.num_divInt_den]

theorem qadd_eq_add (x y : ℚ) : qadd x y = x + y := by
  rw [qadd, ← Rat.num_divInt_den x, ← Rat.num_divInt_den y,
    Rat.divInt_add_divInt _ _ (by exact_mod_cast x.den_nz) (by exact_mod_cast y.den_nz)]
  simp [Rat.num_divInt_den]

theorem f64mul_eq (x y : ℚ) : f64mul x y = roundFloat64 (x * y) := by
  rw [f64mul, qmul_eq_mul]

theorem f64add_eq (x y : ℚ) : f64add x y = roundFloat64 (x + y) := by
  rw [f64add, qadd_eq_add]

theorem ratLit1_8 : (1.8 : ℚ) = Rat.divInt 9 5 := by rw [Rat.divInt_eq_div]; norm_num

theorem ratLit28_5 : (28.5 : ℚ) = Rat.divInt 57 2 := by rw [Rat.divInt_eq_div]; norm_num

theorem ratLit83_3 : (83.3 : ℚ) = Rat.divInt 833 10 := by rw [Rat.divInt_eq_div]; norm_num

theorem ratLit273_15 : (273.15 : ℚ) = Rat.divInt 5463 20 := by rw [Rat.divInt_eq_div]; norm_num

theorem ratLit301_65 : (301.65 : ℚ) = Rat.divInt 6033 20 := by rw [Rat.divInt_eq_div]; norm_num

theorem ratLit83_3plus : (83.30000000000001 : ℚ) =
    Rat.divInt 8330000000000001 100000000000000 := by
  rw [Rat.divInt_eq_div]; norm_num

theorem lit18_eq : lit18 = roundFloat64 (1.8 : ℚ) := by rw [ratLit1_8]; rfl

theorem lit27315_eq : lit27315 = roundFloat64 (273.15 : ℚ) := by rw [ratLit273_15]; rfl

/-! ## Validation lemmas -/

theorem validCepMatch_iff (s : String) : validCepMatch s = true ↔ eightDigits s := by
  unfold validCepMatch eightDigits
  rw [Bool.and_eq_true, beq_iff_eq, List.all_eq_true]

theorem handlerCond_eq_false {s : String} (h : eightDigits s) :
    (s == "" || !validCepMatch s) = false := by
  have hm : validCepMatch s = true := (validCepMatch_iff s).mpr h
  have hne : s ≠ "" := by
    intro he
    rw [he] at h
    exact absurd h.1 (by decide)
  simp [hm, beq_eq_false_iff_ne, hne]

theorem handlerCond_eq_true {s : String} (h : ¬ eightDigits s) :
    (s == "" || !validCepMatch s) = true := by
  have hm : validCepMatch s = false := by
    cases hv : validCepMatch s
    · rfl
    · exact absurd ((validCepMatch_iff s).mp hv) h
  simp [hm]

/-! ## Helper lemmas on the ServiceB handler paths -/

theorem handlerCep_dir_error (parse : String → Option ℚ) (cep : String)
    (dir : Upstream ServiceB.CepAwesomeapiResponse) (wea : Upstream ServiceB.WeatherApiResponse)
    (msg : String) (h8 : eightDigits cep)
    (herr : ServiceB.CepAwesomeapi cep dir = .error msg) :
    ServiceB.HandlerCep parse cep dir wea =
      ⟨⟨404, .err "can not find zipcode"⟩, true, false⟩ := by
  unfold ServiceB.HandlerCep
  simp only [handlerCond_eq_false h8, Bool.cond_false, herr]

theorem handlerCep_weather_error (parse : String → Option ℚ) (cep : String)
    (dir : Upstream ServiceB.CepAwesomeapiResponse) (wea : Upstream ServiceB.WeatherApiResponse)
    (r : ServiceB.CepAwesomeapiResponse) (msg : String) (h8 : eightDigits cep)
    (hok : ServiceB.CepAwesomeapi cep dir = .ok r)
    (herr : (ServiceB.WeatherApi parse r.Latitude r.Longitude wea).result = .error msg) :
    ServiceB.HandlerCep parse cep dir wea =
      ⟨⟨404, .err "can not find zipcode"⟩, true, true⟩ := by
  unfold ServiceB.HandlerCep
  simp only [handlerCond_eq_false h8, Bool.cond_false, hok, herr]

theorem handlerCep_success (parse : String → Option ℚ) (cep : String)
    (dir : Upstream ServiceB.CepAwesomeapiResponse) (wea : Upstream ServiceB.WeatherApiResponse)
    (r : ServiceB.CepAwesomeapiResponse) (w : ServiceB.WeatherApiResponse) (h8 : eightDigits cep)
    (hok : ServiceB.CepAwesomeapi cep dir = .ok r)
    (hwea : (ServiceB.WeatherApi parse r.Latitude r.Longitude wea).result = .ok w) :
    ServiceB.HandlerCep parse cep dir wea =
      ⟨⟨200, .temp ⟨r.City, w.Current.Temperature2M,
        f64add (f64mul w.Current.Temperature2M lit18) 32,
        f64add w.Current.Temperature2M lit27315⟩⟩, true, true⟩ := by
  unfold ServiceB.HandlerCep
  simp only [handlerCond_eq_false h8, Bool.cond_false, hok, hwea]

/-! ## Claim theorems -/

/-- C1: on every successful end-to-end ServiceB response, the payload is
built from the single Celsius reading returned by the Weather Adapter
(the field `Current.Temperature2M`): `temp_C` is that reading itself,
`temp_F` is the float64 computation of `temp_C * 1.8 + 32` and `temp_K`
the float64 computation of `temp_C + 273.15` (see `f64mul_eq`,
`f64add_eq`, `lit18_eq`, `lit27315_eq`); no field is rounded further or
recomputed from any other source. -/
theorem temp_fields_from_single_reading (parse : String → Option ℚ) (cep : String)
    (dir : Upstream ServiceB.CepAwesomeapiResponse) (wea : Upstream ServiceB.WeatherApiResponse)
    (r : ServiceB.CepAwesomeapiResponse) (w : ServiceB.WeatherApiResponse)
    (h8 : eightDigits cep)
    (hdir : ServiceB.CepAwesomeapi cep dir = .ok r)
    (hwea : (ServiceB.WeatherApi parse r.Latitude r.Longitude wea).result = .ok w) :
    ServiceB.HandlerCep parse cep dir wea =
      ⟨⟨200, .temp ⟨r.City, w.Current.Temperature2M,
        f64add (f64mul w.Current.Temperature2M lit18) 32,
        f64add w.Current.Temperature2M lit27315⟩⟩, true, true⟩ :=
  handlerCep_success parse cep dir wea r w h8 hdir hwea

/-- Witness for C1 at a concrete run: a directory hit for São Paulo and a
10.5-Celsius reading. -/
theorem temp_fields_from_single_reading_witness :
    eightDigits "01001000" ∧
    ServiceB.HandlerCep parseDecimal "01001000"
        (.resp 200 (some ⟨"01001000", "", "", "", "SP", "", "-23.55", "-46.64",
          "Sao Paulo", "", ""⟩))
        (.resp 200 (some ⟨0, 0, 0, 0, "", "", 0, ⟨"", "", ""⟩, ⟨"", 0, Rat.divInt 21 2⟩⟩)) =
      ⟨⟨200, .temp ⟨"Sao Paulo", Rat.divInt 21 2,
        f64add (f64mul (Rat.divInt 21 2) lit18) 32,
        f64add (Rat.divInt 21 2) lit27315⟩⟩, true, true⟩ :=
  ⟨by decide, temp_fields_from_single_reading parseDecimal "01001000"
    (.resp 200 (some ⟨"01001000", "", "", "", "SP", "", "-23.55", "-46.64",
      "Sao Paulo", "", ""⟩))
    (.resp 200 (some ⟨0, 0, 0, 0, "", "", 0, ⟨"", "", ""⟩, ⟨"", 0, Rat.divInt 21 2⟩⟩))
    ⟨"01001000", "", "", "", "SP", "", "-23.55", "-46.64", "Sao Paulo", "", ""⟩
    ⟨0, 0, 0, 0, "", "", 0, ⟨"", "", ""⟩, ⟨"", 0, Rat.divInt 21 2⟩⟩
    (by decide) rfl rfl⟩

/-- C2: a string of exactly eight ASCII digits passes CEP validation at
both stages (each proceeds to its downstream call); any other string is
rejected by both stages with 422 and the fixed body
invalid zipcode, before any downstream call is made. -/
theorem cep_validation_both_stages (s : String) (b : ServiceA.ServiceBUpstream)
    (parse : String → Option ℚ) (dir : Upstream ServiceB.CepAwesomeapiResponse)
    (wea : Upstream ServiceB.WeatherApiResponse) :
    (eightDigits s →
      (ServiceA.ValidateAndProcessCep (some ⟨s⟩) b).2 = true ∧
      (ServiceB.HandlerCep parse s dir wea).dirCalled = true) ∧
    (¬ eightDigits s →
      ServiceA.ValidateAndProcessCep (some ⟨s⟩) b = (⟨422, .err "invalid zipcode"⟩, false) ∧
      ServiceB.HandlerCep parse s dir wea = ⟨⟨422, .err "invalid zipcode"⟩, false, false⟩) := by
  constructor
  · intro h
    have hm : validCepMatch s = true := (validCepMatch_iff s).mpr h
    constructor
    · unfold ServiceA.ValidateAndProcessCep
      simp only [hm, Bool.not_true, Bool.cond_false]
      cases hcb : ServiceA.callServiceB s b <;> rfl
    · unfold ServiceB.HandlerCep
      rw [handlerCond_eq_false h]
      simp only [Bool.cond_false]
      cases hd : ServiceB.CepAwesomeapi s dir with
      | error e => rfl
      | ok r =>
        cases hw : (ServiceB.WeatherApi parse r.Latitude r.Longitude wea).result <;> simp [hw]
  · intro h
    have hm : validCepMatch s = false := by
      cases hv : validCepMatch s
      · rfl
      · exact absurd ((validCepMatch_iff s).mp hv) h
    constructor
    · unfold ServiceA.ValidateAndProcessCep
      simp [hm]
    · unfold ServiceB.HandlerCep
      rw [handlerCond_eq_true h]
      rfl

/-- Witness for C2: the eight-digit string 12345678 passes both stages;
the three-digit string 123 is rejected by both with 422 and no
downstream call. -/
theorem cep_validation_both_stages_witness :
    (eightDigits "12345678" ∧
      (ServiceA.ValidateAndProcessCep (some ⟨"12345678"⟩) ServiceA.ServiceBUpstream.netErr).2
        = true ∧
      (ServiceB.HandlerCep parseDecimal "12345678" Upstream.netErr Upstream.netErr).dirCalled
        = true) ∧
    (¬ eightDigits "123" ∧
      ServiceA.ValidateAndProcessCep (some ⟨"123"⟩) ServiceA.ServiceBUpstream.netErr =
        (⟨422, .err "invalid zipcode"⟩, false) ∧
      ServiceB.HandlerCep parseDecimal "123" Upstream.netErr Upstream.netErr =
        ⟨⟨422, .err "invalid zipcode"⟩, false, false⟩) := by
  constructor
  · exact ⟨by decide,
      ((cep_validation_both_stages "12345678" ServiceA.ServiceBUpstream.netErr parseDecimal
        .netErr .netErr).1 (by decide)).1,
      ((cep_validation_both_stages "12345678" ServiceA.ServiceBUpstream.netErr parseDecimal
        .netErr .netErr).1 (by decide)).2⟩
  · exact ⟨by decide,
      ((cep_validation_both_stages "123" ServiceA.ServiceBUpstream.netErr parseDecimal
        .netErr .netErr).2 (by decide)).1,
      ((cep_validation_both_stages "123" ServiceA.ServiceBUpstream.netErr parseDecimal
        .netErr .netErr).2 (by decide)).2⟩

/-- C3: for a valid CEP, any failure of the Directory Lookup Adapter
(not-found, transport error, bad status, bad body, or the empty-echo
quirk) makes ServiceB respond 404 with the fixed body
can not find zipcode, and the Weather Adapter is never invoked. -/
theorem dir_failure_is_404_weather_not_invoked (parse : String → Option ℚ) (cep : String)
    (dir : Upstream ServiceB.CepAwesomeapiResponse) (wea : Upstream ServiceB.WeatherApiResponse)
    (msg : String) (h8 : eightDigits cep)
    (herr : ServiceB.CepAwesomeapi cep dir = .error msg) :
    ServiceB.HandlerCep parse cep dir wea =
      ⟨⟨404, .err "can not find zipcode"⟩, true, false⟩ :=
  handlerCep_dir_error parse cep dir wea msg h8 herr

/-- Witness for C3: upstream directory 404 for a valid CEP. -/
theorem dir_failure_is_404_weather_not_invoked_witness :
    eightDigits "99999998" ∧
    ServiceB.HandlerCep parseDecimal "99999998" (Upstream.resp 404 none) Upstream.netErr =
      ⟨⟨404, .err "can not find zipcode"⟩, true, false⟩ :=
  ⟨by decide, dir_failure_is_404_weather_not_invoked parseDecimal "99999998"
    (Upstream.resp 404 none) Upstream.netErr "cep not found" (by decide) rfl⟩

/-- C4: for a valid CEP where the directory lookup succeeds but the
Weather Adapter fails for any reason, ServiceB responds 404 with the fixed
body can not find zipcode. -/
theorem weather_failure_is_404 (parse : String → Option ℚ) (cep : String)
    (dir : Upstream ServiceB.CepAwesomeapiResponse) (wea : Upstream ServiceB.WeatherApiResponse)
    (r : ServiceB.CepAwesomeapiResponse) (msg : String) (h8 : eightDigits cep)
    (hok : ServiceB.CepAwesomeapi cep dir = .ok r)
    (herr : (ServiceB.WeatherApi parse r.Latitude r.Longitude wea).result = .error msg) :
    ServiceB.HandlerCep parse cep dir wea =
      ⟨⟨404, .err "can not find zipcode"⟩, true, true⟩ :=
  handlerCep_weather_error parse cep dir wea r msg h8 hok herr

/-- Witness for C4: the directory succeeds but returns an unparsable
latitude, so the Weather Adapter fails. -/
theorem weather_failure_is_404_witness :
    eightDigits "29902555" ∧
    ServiceB.HandlerCep parseDecimal "29902555"
        (.resp 200 (some ⟨"29902555", "", "", "", "ES", "", "abc", "-40.33", "Vitoria", "", ""⟩))
        Upstream.netErr =
      ⟨⟨404, .err "can not find zipcode"⟩, true, true⟩ :=
  ⟨by decide, weather_failure_is_404 parseDecimal "29902555"
    (.resp 200 (some ⟨"29902555", "", "", "", "ES", "", "abc", "-40.33", "Vitoria", "", ""⟩))
    Upstream.netErr
    ⟨"29902555", "", "", "", "ES", "", "abc", "-40.33", "Vitoria", "", ""⟩
    "invalid coordinates" (by decide) rfl rfl⟩

/-- C5: a directory response with HTTP status 200 whose parsed body has an
empty CEP-echo field is treated as not-found by the Directory Lookup
Adapter, and consequently ServiceB responds 404 with the fixed body
can not find zipcode. -/
theorem empty_cep_echo_is_not_found (parse : String → Option ℚ) (cep : String)
    (wea : Upstream ServiceB.WeatherApiResponse) (r : ServiceB.CepAwesomeapiResponse)
    (hr : r.Cep = "") :
    ServiceB.CepAwesomeapi cep (.resp 200 (some r)) = .error "cep not found" ∧
    (eightDigits cep →
      ServiceB.HandlerCep parse cep (.resp 200 (some r)) wea =
        ⟨⟨404, .err "can not find zipcode"⟩, true, false⟩) := by
  have hc : ServiceB.CepAwesomeapi cep (.resp 200 (some r)) = .error "cep not found" := by
    unfold ServiceB.CepAwesomeapi
    simp [hr]
  exact ⟨hc, fun h8 => handlerCep_dir_error parse cep (.resp 200 (some r)) wea
    "cep not found" h8 hc⟩

/-- Witness for C5: the spec scenario with CEP 99999999 and a 200 body
whose CEP-echo field is empty. -/
theorem empty_cep_echo_is_not_found_witness :
    ServiceB.CepAwesomeapi "99999999"
        (.resp 200 (some ⟨"", "", "", "", "", "", "", "", "", "", ""⟩)) =
      .error "cep not found" ∧
    ServiceB.HandlerCep parseDecimal "99999999"
        (.resp 200 (some ⟨"", "", "", "", "", "", "", "", "", "", ""⟩)) Upstream.netErr =
      ⟨⟨404, .err "can not find zipcode"⟩, true, false⟩ :=
  ⟨(empty_cep_echo_is_not_found parseDecimal "99999999" Upstream.netErr
      ⟨"", "", "", "", "", "", "", "", "", "", ""⟩ rfl).1,
    (empty_cep_echo_is_not_found parseDecimal "99999999" Upstream.netErr
      ⟨"", "", "", "", "", "", "", "", "", "", ""⟩ rfl).2 (by decide)⟩

/-- C6: when ServiceB answers 200 with a body that decodes as a
`Temperature`, the gateway relays that payload unchanged with HTTP 200
(both services encode the identical `Temperature` shape, so the parsed
value is exactly the payload ServiceB produced). -/
theorem gateway_relays_success_body (s : String) (bb : ServiceA.ServiceBBody)
    (t : Temperature) (h8 : eightDigits s) (ht : bb.tempParse = some t) :
    ServiceA.ValidateAndProcessCep (some ⟨s⟩) (.resp 200 bb) = (⟨200, .temp t⟩, true) := by
  have hm : validCepMatch s = true := (validCepMatch_iff s).mpr h8
  unfold ServiceA.ValidateAndProcessCep ServiceA.callServiceB
  simp [hm, ht]

/-- Witness for C6 at a concrete payload. -/
theorem gateway_relays_success_body_witness :
    eightDigits "12345678" ∧
    ServiceA.ValidateAndProcessCep (some ⟨"12345678"⟩)
        (.resp 200 ⟨"", "ignored", some ⟨"X", 1, 2, 3⟩⟩) =
      (⟨200, .temp ⟨"X", 1, 2, 3⟩⟩, true) :=
  ⟨by decide, gateway_relays_success_body "12345678" ⟨"", "ignored", some ⟨"X", 1, 2, 3⟩⟩
    ⟨"X", 1, 2, 3⟩ (by decide) rfl⟩

/-- C7: when ServiceB answers any non-200 status, the gateway responds
with that same status, and the outward error message is the error field
of the JSON body when non-empty, else the raw body text, re-wrapped as
the single-field error object. -/
theorem gateway_relays_error_status (s : String) (status : Nat) (bb : ServiceA.ServiceBBody)
    (h8 : eightDigits s) (hs : status ≠ 200) :
    ServiceA.ValidateAndProcessCep (some ⟨s⟩) (.resp status bb) =
      (⟨status, .err (bif bb.errField == "" then bb.raw else bb.errField)⟩, true) := by
  have hm : validCepMatch s = true := (validCepMatch_iff s).mpr h8
  unfold ServiceA.ValidateAndProcessCep ServiceA.callServiceB
  simp [hm, hs]

/-- Witness for C7: one 404 with a parsed error field, and one 500 whose
body lacks an error field, falling back to the raw text. -/
theorem gateway_relays_error_status_witness :
    ((404 : Nat) ≠ 200 ∧
      ServiceA.ValidateAndProcessCep (some ⟨"12345678"⟩)
          (.resp 404 ⟨"can not find zipcode", "rawtext", none⟩) =
        (⟨404, .err "can not find zipcode"⟩, true)) ∧
    ((500 : Nat) ≠ 200 ∧
      ServiceA.ValidateAndProcessCep (some ⟨"12345678"⟩)
          (.resp 500 ⟨"", "upstream exploded", none⟩) =
        (⟨500, .err "upstream exploded"⟩, true)) :=
  ⟨⟨by decide, gateway_relays_error_status "12345678" 404
      ⟨"can not find zipcode", "rawtext", none⟩ (by decide) (by decide)⟩,
    ⟨by decide, gateway_relays_error_status "12345678" 500
      ⟨"", "upstream exploded", none⟩ (by decide) (by decide)⟩⟩

/-- C8: if either coordinate string fails to parse as a decimal number,
the Weather Adapter returns a failure and issues no HTTP call to the
weather API (the result does not depend on the upstream oracle at all). -/
theorem weather_bad_coords_no_call (parse : String → Option ℚ) (lat lon : String)
    (u : Upstream ServiceB.WeatherApiResponse)
    (h : parse lat = none ∨ parse lon = none) :
    ServiceB.WeatherApi parse lat lon u = ⟨.error "invalid coordinates", false⟩ := by
  unfold ServiceB.WeatherApi
  rcases h with h | h
  · rw [h]
  · cases hp : parse lat with
    | none => rfl
    | some v => simp only [hp, h]

/-- Witness for C8: an unparsable latitude. -/
theorem weather_bad_coords_no_call_witness :
    parseDecimal "abc" = none ∧
    ServiceB.WeatherApi parseDecimal "abc" "1.5" Upstream.netErr =
      ⟨.error "invalid coordinates", false⟩ :=
  ⟨rfl, weather_bad_coords_no_call parseDecimal "abc" "1.5" Upstream.netErr (Or.inl rfl)⟩

/-- C9 counterexample: in the Vitória scenario (directory hit with
coordinates -20.31 and -40.33, weather reading 28.5 Celsius) the claimed
payload with temp_F = 83.3 is not what ServiceB produces — neither when
83.3 is read as the exact decimal 833/10 (first conjunct; temp_K there is
the float64 closest to 301.65, the value the program does produce) nor
when it is read as the float64 closest to 83.3 (second conjunct).  The
float64 computation 28.5*1.8 + 32 is one ulp above 83.3. -/
theorem scenario_vitoria_tempF_not_83_3 :
    (ServiceB.HandlerCep parseDecimal "29902555" dirVitoria weaVitoria).response.body ≠
      RespBody.temp ⟨"Vitória", 28.5, 83.3, roundFloat64 (301.65 : ℚ)⟩ ∧
    (ServiceB.HandlerCep parseDecimal "29902555" dirVitoria weaVitoria).response.body ≠
      RespBody.temp ⟨"Vitória", 28.5, roundFloat64 (83.3 : ℚ), roundFloat64 (301.65 : ℚ)⟩ := by
  constructor
  · rw [ratLit28_5, ratLit83_3, ratLit301_65]
    decide
  · rw [ratLit28_5, ratLit83_3, ratLit301_65]
    decide

/-- C9 amended: in the Vitória scenario the response is HTTP 200 with
city Vitória, temp_C exactly 28.5 and temp_K exactly the float64 value
printed as 301.65, but temp_F is the float64 value printed as
83.30000000000001 (the fraction 1465429097499853/2^44), one ulp above the
float64 closest to 83.3: the float64 computation 28.5*1.8 + 32 does not
produce 83.3 exactly. -/
theorem scenario_vitoria_actual_response :
    ServiceB.HandlerCep parseDecimal "29902555" dirVitoria weaVitoria =
      ⟨⟨200, .temp ⟨"Vitória", Rat.divInt 57 2,
        Rat.divInt 1465429097499853 17592186044416,
        Rat.divInt 2653341460149043 8796093022208⟩⟩, true, true⟩ ∧
    Rat.divInt 1465429097499853 17592186044416 ≠ roundFloat64 (83.3 : ℚ) ∧
    Rat.divInt 1465429097499853 17592186044416 = roundFloat64 (83.30000000000001 : ℚ) ∧
    Rat.divInt 2653341460149043 8796093022208 = roundFloat64 (301.65 : ℚ) := by
  refine ⟨by decide, ?_, ?_, ?_⟩
  · rw [ratLit83_3]
    decide
  · rw [ratLit83_3plus]
    decide
  · rw [ratLit301_65]
    decide

/-- C10: for every request and every combination of adapter outcomes, the
ServiceB handler responds with exactly one of the three shapes: 422 with
the fixed body invalid zipcode, 404 with the fixed body
can not find zipcode, or 200 with a Temperature payload; in particular it
never produces a 500 from its own logic. -/
theorem handler_response_trichotomy (parse : String → Option ℚ) (cep : String)
    (dir : Upstream ServiceB.CepAwesomeapiResponse)
    (wea : Upstream ServiceB.WeatherApiResponse) :
    (ServiceB.HandlerCep parse cep dir wea).response = ⟨422, .err "invalid zipcode"⟩ ∨
    (ServiceB.HandlerCep parse cep dir wea).response = ⟨404, .err "can not find zipcode"⟩ ∨
    ((ServiceB.HandlerCep parse cep dir wea).response.status = 200 ∧
      ∃ t, (ServiceB.HandlerCep parse cep dir wea).response.body = RespBody.temp t) := by
  unfold ServiceB.HandlerCep
  cases hcond : (cep == "" || !validCepMatch cep) with
  | true => left; rfl
  | false =>
    cases hd : ServiceB.CepAwesomeapi cep dir with
    | error e => right; left; rfl
    | ok r =>
      cases hw : (ServiceB.WeatherApi parse r.Latitude r.Longitude wea).result with
      | error e => right; left; simp [hw]
      | ok w =>
        right; right
        constructor
        · simp [hw]
        · exact ⟨⟨r.City, w.Current.Temperature2M,
            f64add (f64mul w.Current.Temperature2M lit18) 32,
            f64add w.Current.Temperature2M lit27315⟩, by simp [hw]⟩
